import Mathlib

/-!
Shallow embedding of the dytor-room-server repository:
`server/websocket-server.js` (global mode), `src/server/room-server.js`
(room mode) and `src/server/auth-server.js` (room-code generation).
JavaScript `Map`s are modelled as insertion-ordered association lists,
`Set`s as duplicate-free lists, WebSocket handles as natural numbers,
and "readyState === OPEN" as membership in an explicit `openConns` list.
Opaque JSON payloads are carried as strings.
-/

/-- Lookup in a JS `Map` modelled as an association list (first match). -/
def mget {α β : Type} [DecidableEq α] (k : α) : List (α × β) → Option β
  | [] => none
  | (k2, v) :: rest => if k = k2 then some v else mget k rest

/-- JS `Map.set`: update in place if the key exists, else append. -/
def mset {α β : Type} [DecidableEq α] (k : α) (v : β) : List (α × β) → List (α × β)
  | [] => [(k, v)]
  | (k2, v2) :: rest => if k = k2 then (k, v) :: rest else (k2, v2) :: mset k v rest

/-- JS `Map.delete`: remove the entry with the given key. -/
def mdel {α β : Type} [DecidableEq α] (k : α) : List (α × β) → List (α × β)
  | [] => []
  | (k2, v2) :: rest => if k = k2 then rest else (k2, v2) :: mdel k rest

/-- JS `Set.add`: append unless already present. -/
def sadd {α : Type} [DecidableEq α] (x : α) (s : List α) : List α :=
  if x ∈ s then s else s ++ [x]

/-- JS `Set.delete`: remove the element. -/
def sdel {α : Type} [DecidableEq α] (x : α) (s : List α) : List α :=
  s.filter (fun y => y ≠ x)

/-- JS `a || b` for strings: an absent or empty string falls back to the default. -/
def jsOr (v : Option String) (d : String) : String :=
  match v with
  | some s => if s = "" then d else s
  | none => d

/-- JS `a || null` for strings: absent or empty becomes null. -/
def jsOrNull (v : Option String) : Option String :=
  match v with
  | some s => if s = "" then none else some s
  | none => none

/-! ## Global-mode server (`server/websocket-server.js`) -/

/-- Per-connection client record kept in the `clients` map. The JS record is
created with `id`, `type`, `permissions`, `name` and gains the other fields on
registration; absent fields are the defaults here. -/
structure GClient where
  id : Nat
  type : String
  permissions : List String
  name : String
  role : Option String := none
  requestedPermissions : List String := []
  speakerName : Option String := none
  url : Option String := none
deriving DecidableEq

/-- The record installed by the `wss.on('connection')` handler. -/
def newClientRecord (clientId : Nat) : GClient :=
  { id := clientId, type := "unknown", permissions := [], name := "Unknown Client" }

/-- Whole-server mutable state of `websocket-server.js`: the `clients` map,
the `controllerClient` slot, the `remoteClients` and `displayClients` sets,
plus the set of transports currently in readyState OPEN. -/
structure WSState where
  clients : List (Nat × GClient)
  controllerClient : Option Nat
  remoteClients : List Nat
  displayClients : List Nat
  openConns : List Nat
deriving DecidableEq

/-- Inbound WebSocket frames handled by the global-mode `switch (data.type)`. -/
inductive InMsg where
  | registerController
  | registerRemote (name : Option String) (role : Option String)
      (permissions : Option (List String)) (speakerName : Option String)
  | registerDisplay (url : Option String)
  | timerUpdate (d : String)
  | messageUpdate (d : String)
  | remoteControl (action : String) (d : String)
  | grantPermissions (clientId : Nat) (permissions : List String)
  | unknownType (t : String)
deriving DecidableEq

/-- Outbound frames sent by the global-mode server. -/
inductive OutMsg where
  | controllerStatus (connected : Bool)
  | controllerStatusInit (connected : Bool) (permissions : List String) (role : Option String)
  | remoteConnected (clientId : Nat) (name : String) (role : Option String)
      (speakerName : Option String) (permissions : List String)
  | requestCurrentState (targetClientId : Nat)
  | displayConnected (clientId : Nat) (name : String) (url : Option String)
  | timerUpdate (d : String)
  | messageUpdate (d : String)
  | remoteControlFwd (action : String) (d : String)
  | permissionDenied (action : String)
  | permissionsGranted (permissions : List String)
  | remoteCount (count : Nat)
  | displayDisconnected (clientId : Nat) (name : String) (url : Option String)
deriving DecidableEq

/-- Static role table of `hasRolePermission`; an unknown role maps to no actions. -/
def rolePermissions (role : String) : List String :=
  if role = "admin" then
    ["START_RESUME", "PAUSE", "STOP", "ADD_TIME", "SUBTRACT_TIME", "RESET",
     "SCHEDULE_VIEW", "SCHEDULE_EDIT", "SCHEDULE_REORDER", "SCHEDULE_ADD", "SCHEDULE_REMOVE",
     "MESSAGE_SEND", "MESSAGE_PRESET", "MESSAGE_PRIVATE", "MESSAGE_FLASH",
     "DISPLAY_FADE", "DISPLAY_SETTINGS"]
  else if role = "queue_manager" then
    ["START_RESUME", "PAUSE", "ADD_TIME", "SUBTRACT_TIME",
     "SCHEDULE_VIEW", "MESSAGE_PRESET", "MESSAGE_SEND"]
  else if role = "speaker" then
    ["PERSONAL_TIMER", "PERSONAL_MESSAGES", "SCHEDULE_VIEW"]
  else if role = "viewer" then []
  else []

/-- `hasRolePermission(role, action)`. -/
def hasRolePermission (role action : String) : Bool :=
  (rolePermissions role).contains action

/-- Legacy `permissionMap` from fine-grained actions to satisfying coarse grants. -/
def permissionMap (action : String) : List String :=
  if action = "START_RESUME" then ["TIME_CONTROL", "FULL_CONTROL"]
  else if action = "PAUSE" then ["TIME_CONTROL", "FULL_CONTROL"]
  else if action = "ADD_TIME" then ["TIME_CONTROL", "FULL_CONTROL"]
  else if action = "SEND_MESSAGE" then ["MESSAGE_ONLY", "TIME_CONTROL", "FULL_CONTROL"]
  else if action = "SHOW_MESSAGE" then ["MESSAGE_ONLY", "TIME_CONTROL", "FULL_CONTROL"]
  else if action = "FLASH_MESSAGE" then ["MESSAGE_ONLY", "TIME_CONTROL", "FULL_CONTROL"]
  else if action = "FADE_TO_BLACK" then ["FULL_CONTROL"]
  else if action = "SCHEDULE_CONTROL" then ["FULL_CONTROL"]
  else if action = "SETTINGS_CONTROL" then ["FULL_CONTROL"]
  else []

/-- The legacy branch of `hasPermission`: empty grant set is denied, otherwise
the action is allowed iff the client holds one of the satisfying grants. -/
def legacyPermissionCheck (permissions : List String) (action : String) : Bool :=
  if permissions.isEmpty then false
  else (permissionMap action).any (fun p => permissions.contains p)

/-- `hasPermission(client, action)`: role-based table when a role is declared,
legacy grant fallback otherwise. -/
def hasPermission (client : GClient) (action : String) : Bool :=
  match client.role with
  | some r => hasRolePermission r action
  | none => legacyPermissionCheck client.permissions action

/-- One pass of `broadcastToRemotes`/`broadcastToDisplays` over a client set:
open connections receive the message, closed ones are deleted from the set.
Returns the surviving set and the sends, in iteration order. -/
def broadcastPass (openConns : List Nat) (msg : OutMsg) : List Nat → List Nat × List (Nat × OutMsg)
  | [] => ([], [])
  | c :: rest =>
    if openConns.contains c then
      let r := broadcastPass openConns msg rest
      (c :: r.1, (c, msg) :: r.2)
    else
      broadcastPass openConns msg rest

/-- `updateRemoteCount()`: tell an open controller the current remote count. -/
def updateRemoteCount (s : WSState) : List (Nat × OutMsg) :=
  match s.controllerClient with
  | some c =>
      if s.openConns.contains c then [(c, OutMsg.remoteCount s.remoteClients.length)] else []
  | none => []

/-- First `clients` entry matching `GRANT_PERMISSIONS`'s target search
(`clientData.id === targetClientId && clientData.type === 'remote'`). -/
def findTarget (targetId : Nat) : List (Nat × GClient) → Option (Nat × GClient)
  | [] => none
  | (w, c) :: rest =>
      if c.id = targetId ∧ c.type = "remote" then some (w, c) else findTarget targetId rest

/-- The `ws.on('message')` dispatch of `websocket-server.js`, as a step from
server state to server state plus the list of (target, frame) sends. -/
def handleMessage (ws : Nat) (msg : InMsg) (s : WSState) : WSState × List (Nat × OutMsg) :=
  match mget ws s.clients with
  | none => (s, [])
  | some client =>
    match msg with
    | .registerController =>
        let client := { client with type := "controller" }
        let s := { s with clients := mset ws client s.clients, controllerClient := some ws }
        let r := broadcastPass s.openConns (.controllerStatus true) s.remoteClients
        ({ s with remoteClients := r.1 }, r.2)
    | .registerRemote name role permissions speakerName =>
        let client := { client with
          type := "remote",
          name := jsOr name ("Remote Client " ++ toString client.id),
          role := jsOrNull role,
          requestedPermissions := permissions.getD [],
          speakerName := jsOrNull speakerName }
        let s := { s with
          clients := mset ws client s.clients,
          remoteClients := sadd ws s.remoteClients }
        let statusReply :=
          [(ws, OutMsg.controllerStatusInit s.controllerClient.isSome
                  client.requestedPermissions client.role)]
        let notifyController :=
          match s.controllerClient with
          | some c =>
              if s.openConns.contains c then
                [(c, OutMsg.remoteConnected client.id client.name client.role
                      client.speakerName client.requestedPermissions)]
              else []
          | none => []
        (s, statusReply ++ notifyController ++ updateRemoteCount s)
    | .registerDisplay url =>
        let client := { client with
          type := "display",
          name := "Display Client " ++ toString client.id,
          url := some (jsOr url "Unknown") }
        let s := { s with
          clients := mset ws client s.clients,
          displayClients := sadd ws s.displayClients }
        let requestState :=
          match s.controllerClient with
          | some c =>
              if s.openConns.contains c then
                [(c, OutMsg.requestCurrentState client.id)]
              else []
          | none => []
        let notifyController :=
          match s.controllerClient with
          | some c =>
              if s.openConns.contains c then
                [(c, OutMsg.displayConnected client.id client.name client.url)]
              else []
          | none => []
        (s, requestState ++ notifyController)
    | .timerUpdate d =>
        let r1 := broadcastPass s.openConns (.timerUpdate d) s.remoteClients
        let r2 := broadcastPass s.openConns (.timerUpdate d) s.displayClients
        ({ s with remoteClients := r1.1, displayClients := r2.1 }, r1.2 ++ r2.2)
    | .messageUpdate d =>
        let r1 := broadcastPass s.openConns (.messageUpdate d) s.remoteClients
        let r2 := broadcastPass s.openConns (.messageUpdate d) s.displayClients
        ({ s with remoteClients := r1.1, displayClients := r2.1 }, r1.2 ++ r2.2)
    | .remoteControl action d =>
        if hasPermission client action then
          match s.controllerClient with
          | some c =>
              if s.openConns.contains c then (s, [(c, OutMsg.remoteControlFwd action d)])
              else (s, [])
          | none => (s, [])
        else
          (s, [(ws, OutMsg.permissionDenied action)])
    | .grantPermissions targetId perms =>
        if client.type = "controller" then
          match findTarget targetId s.clients with
          | some (wsT, cT) =>
              ({ s with clients := mset wsT { cT with permissions := perms } s.clients },
               [(wsT, OutMsg.permissionsGranted perms)])
          | none => (s, [])
        else (s, [])
    | .unknownType _ => (s, [])

/-- The `wss.on('connection')` handler: install a fresh client record. -/
def handleConnect (ws : Nat) (clientId : Nat) (s : WSState) : WSState :=
  { s with clients := mset ws (newClientRecord clientId) s.clients }

/-- The `ws.on('close')` handler: role-specific cleanup, then drop the record.
Note that the controller branch fires for any client whose `type` is
`controller`, whether or not it is the current `controllerClient`. -/
def handleClose (ws : Nat) (s : WSState) : WSState × List (Nat × OutMsg) :=
  match mget ws s.clients with
  | none => ({ s with clients := mdel ws s.clients }, [])
  | some client =>
    if client.type = "controller" then
      let s := { s with controllerClient := none }
      let r := broadcastPass s.openConns (.controllerStatus false) s.remoteClients
      ({ s with remoteClients := r.1, clients := mdel ws s.clients }, r.2)
    else if client.type = "remote" then
      let s := { s with remoteClients := sdel ws s.remoteClients }
      (({ s with clients := mdel ws s.clients }), updateRemoteCount s)
    else if client.type = "display" then
      let s := { s with displayClients := sdel ws s.displayClients }
      let out :=
        match s.controllerClient with
        | some c =>
            if s.openConns.contains c then
              [(c, OutMsg.displayDisconnected client.id client.name client.url)]
            else []
        | none => []
      ({ s with clients := mdel ws s.clients }, out)
    else
      ({ s with clients := mdel ws s.clients }, [])

/-! ## Room-mode server (`src/server/room-server.js`) -/

/-- `ROOM_CONFIG.MAX_USERS_PER_ROOM`. -/
def MAX_USERS_PER_ROOM : Nat := 50

/-- `ROOM_CONFIG.ROOM_TIMEOUT` in milliseconds. -/
def ROOM_TIMEOUT : Nat := 24 * 60 * 60 * 1000

/-- A room participant stored in `room.users`; `ws` is the attached
transport, absent until the user registers a socket. -/
structure RUser where
  id : String
  name : String
  role : String
  joinedAt : Nat
  ws : Option Nat := none
deriving DecidableEq

/-- The `hostInfo` record stored in `room.host`; `type` is `hostType || 'desktop'`. -/
structure HostInfo where
  id : String
  name : String
  type : String
  joinedAt : Nat
  ws : Option Nat := none
deriving DecidableEq

/-- `room.settings`. -/
structure RoomSettings where
  allowViewers : Bool
  allowSpeakers : Bool
  requireApproval : Bool
  maxUsers : Nat
deriving DecidableEq

/-- `room.state`: the last-known timer/message blob plus the host-connected flag. -/
structure TRoomState where
  timer : Option String
  message : Option String
  isConnected : Bool
deriving DecidableEq

/-- A room as created by `createRoom`. -/
structure Room where
  code : String
  host : HostInfo
  users : List (String × RUser)
  createdAt : Nat
  lastActivity : Nat
  settings : RoomSettings
  state : TRoomState
deriving DecidableEq

/-- `createRoom(hostInfo, customRoomCode)`: the generated code `gen` stands for
the `generateRoomCode()` call taken when no custom code is supplied. The store
entry at the chosen code is set unconditionally; there is no conflict check. -/
def createRoom (now : Nat) (gen : String) (hostInfo : HostInfo) (customRoomCode : Option String)
    (rooms : List (String × Room)) : Room × List (String × Room) :=
  let roomCode := jsOr customRoomCode gen
  let room : Room :=
    { code := roomCode
      host := hostInfo
      users := []
      createdAt := now
      lastActivity := now
      settings :=
        { allowViewers := true, allowSpeakers := true, requireApproval := false,
          maxUsers := MAX_USERS_PER_ROOM }
      state := { timer := none, message := none, isConnected := false } }
  (room, mset roomCode room rooms)

/-- `joinRoom(roomCode, userInfo)`: throws `Room not found` / `Room is full`,
otherwise inserts the user and bumps `lastActivity`. -/
def joinRoom (now : Nat) (roomCode : String) (userInfo : RUser)
    (rooms : List (String × Room)) : Except String (Room × List (String × Room)) :=
  match mget roomCode rooms with
  | none => .error "Room not found"
  | some room =>
    if room.users.length ≥ room.settings.maxUsers then .error "Room is full"
    else
      let room := { room with users := mset userInfo.id userInfo room.users, lastActivity := now }
      .ok (room, mset roomCode room rooms)

/-- `leaveRoom(roomCode, userId)`: remove the participant, bump `lastActivity`,
and delete the room from the store when no users remain. -/
def leaveRoom (now : Nat) (roomCode : String) (userId : String)
    (rooms : List (String × Room)) : List (String × Room) :=
  match mget roomCode rooms with
  | none => rooms
  | some room =>
    let room := { room with users := mdel userId room.users, lastActivity := now }
    if room.users.length = 0 then mdel roomCode rooms
    else mset roomCode room rooms

/-- Outbound frames of the room-mode server (payloads abbreviated to the
fields the verified properties depend on). -/
inductive ROut where
  | errorMsg (message : String)
  | hostConnected
  | roomJoinedHost (roomCode : String) (userCount : Nat)
  | roomJoined (roomCode : String) (userCount : Nat)
  | roomClientJoined (clientId : String)
  | roomStateUpdate (state : TRoomState)
  | hostDisconnected
  | roomClientLeft (clientId : String)
  | userJoined (userId : String)
  | userLeft (userId : String)
  | chatMessage (msgId : String) (userId : String) (message : String) (timestamp : Nat)
  | userCommandFwd (userId : String) (command : String) (d : String)
deriving DecidableEq

/-- The `room.users.forEach` loop of `broadcastToRoom`: send to every user
other than `excludeUserId` whose socket is attached and open. Nothing is
removed from the user map. -/
def broadcastUsers (openConns : List Nat) (msg : ROut) (excludeUserId : Option String) :
    List (String × RUser) → List (Nat × ROut)
  | [] => []
  | (uid, u) :: rest =>
    let tail := broadcastUsers openConns msg excludeUserId rest
    match u.ws with
    | some w =>
        if excludeUserId ≠ some uid ∧ openConns.contains w then (w, msg) :: tail else tail
    | none => tail

/-- `broadcastToRoom(roomCode, message, excludeUserId)`. -/
def broadcastToRoom (openConns : List Nat) (roomCode : String) (msg : ROut)
    (excludeUserId : Option String) (rooms : List (String × Room)) : List (Nat × ROut) :=
  match mget roomCode rooms with
  | none => []
  | some room => broadcastUsers openConns msg excludeUserId room.users

/-- The per-connection closure variables `currentRoom`/`currentUser` of the
room server. A `hostRef` records the `type` of the referenced host object
(immutable after room creation); plain users carry no `type` field. -/
inductive UserRef where
  | hostRef (roomCode : String) (hostType : String)
  | userRef (roomCode : String) (userId : String)
deriving DecidableEq

/-- JS `currentUser.type`: hosts carry their `hostInfo.type`; user records
have no `type` property (undefined). -/
def userRefType : UserRef → Option String
  | .hostRef _ t => some t
  | .userRef _ _ => none

/-- Connection-local state of the room-server message handlers. -/
structure ConnCtx where
  currentRoom : Option String := none
  currentUser : Option UserRef := none
deriving DecidableEq

/-- A partial `data.state` object: each present field overwrites the room
state field on shallow merge. -/
structure StatePatch where
  timer : Option (Option String) := none
  message : Option (Option String) := none
  isConnected : Option Bool := none
deriving DecidableEq

/-- `{ ...room.state, ...data.state }`: shallow per-field merge. -/
def mergeState (st : TRoomState) (p : StatePatch) : TRoomState :=
  { timer := p.timer.getD st.timer
    message := p.message.getD st.message
    isConnected := p.isConnected.getD st.isConnected }

/-- `handleRoomStateUpdate(data)`: only a bound `currentUser` whose `type` is
`desktop` (the host) may merge into the room state; the merged state is then
broadcast to all room users. -/
def handleRoomStateUpdate (now : Nat) (openConns : List Nat) (ctx : ConnCtx) (p : StatePatch)
    (rooms : List (String × Room)) : List (String × Room) × List (Nat × ROut) :=
  match ctx.currentRoom, ctx.currentUser with
  | some rc, some u =>
    if userRefType u ≠ some "desktop" then (rooms, [])
    else
      match mget rc rooms with
      | none => (rooms, [])
      | some room =>
        let room := { room with state := mergeState room.state p, lastActivity := now }
        let rooms := mset rc room rooms
        (rooms, broadcastToRoom openConns rc (.roomStateUpdate room.state) none rooms)
  | _, _ => (rooms, [])

/-- `clientInfo` of a `JOIN_ROOM` frame. -/
structure ClientInfo where
  name : Option String := none
  role : Option String := none
deriving DecidableEq

/-- `handleJoinRoom(ws, data)`: unknown room replies ERROR; a `host` client is
attached as the room's host; any other client is inserted into `room.users`
unconditionally — there is no capacity check on this path — the host is
notified and `ROOM_JOINED` is replied. `freshId` stands for the
`crypto.randomUUID()` call. -/
def handleJoinRoom (now : Nat) (openConns : List Nat) (freshId : String) (ws : Nat)
    (roomCode : String) (clientType : String) (clientInfo : ClientInfo)
    (rooms : List (String × Room)) :
    ConnCtx × List (String × Room) × List (Nat × ROut) :=
  match mget roomCode rooms with
  | none => ({}, rooms, [(ws, ROut.errorMsg "Room not found")])
  | some room =>
    if clientType = "host" then
      let host := { room.host with ws := some ws }
      let room := { room with
        host := host,
        state := { room.state with isConnected := true },
        lastActivity := now }
      let rooms := mset roomCode room rooms
      let ctx : ConnCtx :=
        { currentRoom := some roomCode, currentUser := some (.hostRef roomCode host.type) }
      (ctx, rooms,
        broadcastToRoom openConns roomCode .hostConnected none rooms
          ++ [(ws, ROut.roomJoinedHost roomCode room.users.length)])
    else
      let userInfo : RUser :=
        { id := freshId
          name := jsOr clientInfo.name "Anonymous User"
          role := jsOr clientInfo.role "viewer"
          joinedAt := now
          ws := some ws }
      let room := { room with users := mset freshId userInfo room.users, lastActivity := now }
      let rooms := mset roomCode room rooms
      let ctx : ConnCtx :=
        { currentRoom := some roomCode, currentUser := some (.userRef roomCode freshId) }
      let notifyHost :=
        match room.host.ws with
        | some hw =>
            if openConns.contains hw then [(hw, ROut.roomClientJoined freshId)] else []
        | none => []
      (ctx, rooms, notifyHost ++ [(ws, ROut.roomJoined roomCode room.users.length)])

/-- The room-server HTTP create endpoint (`POST /api/rooms/create`): take the
requested code or one generated code, reject if it is already live, otherwise
call `createRoom` with it. -/
def createRoomEndpoint (now : Nat) (gen : String) (hostInfo : HostInfo)
    (bodyRoomCode : Option String) (rooms : List (String × Room)) :
    Except String (Room × List (String × Room)) :=
  let code := jsOr bodyRoomCode gen
  if (mget code rooms).isSome then .error "Room code already exists"
  else .ok (createRoom now gen hostInfo (some code) rooms)

/-! ## Auth-server room-code generation (`src/server/auth-server.js`) -/

/-- The `do { roomCode = generateRoomCode(); attempts++ } while
(roomOwners.has(roomCode) && attempts < 10)` loop; `gen i` is the code
produced by the i-th `generateRoomCode()` call. Returns the last generated
code together with the final `attempts` counter. -/
def codeGenAux (gen : Nat → String) (owners : List String) : Nat → Nat → String × Nat
  | 0, attempts => (gen attempts, attempts + 1)
  | fuel + 1, attempts =>
    let code := gen attempts
    let a := attempts + 1
    if owners.contains code ∧ a < 10 then codeGenAux gen owners fuel a
    else (code, a)

/-- The code-generation step of `POST /api/rooms/create` on the auth server:
run the retry loop, then fail when `attempts >= 10`. -/
def authGenerateRoomCode (gen : Nat → String) (owners : List String) : Except String String :=
  let r := codeGenAux gen owners 10 0
  if r.2 ≥ 10 then .error "Failed to generate unique room code"
  else .ok r.1

/-! ## Auth tokens (`server/websocket-server.js`) -/

/-- `REMOTE_AUTH_TIMEOUT`: 5 minutes in milliseconds. -/
def REMOTE_AUTH_TIMEOUT : Nat := 5 * 60 * 1000

/-- Value stored in the `authTokens` map. -/
structure AuthData where
  expires : Nat
  used : Bool
deriving DecidableEq

/-- `generateAuthToken()` at time `now`, with the fresh random token given:
store it unused with a 5-minute expiry. -/
def generateAuthToken (now : Nat) (token : String)
    (m : List (String × AuthData)) : List (String × AuthData) :=
  mset token { expires := now + REMOTE_AUTH_TIMEOUT, used := false } m

/-- `validateAuthToken(token)` at time `now`: unknown tokens fail; expired
tokens are deleted and fail; used tokens fail; otherwise the token is marked
used and validation succeeds. -/
def validateAuthToken (now : Nat) (token : String)
    (m : List (String × AuthData)) : Bool × List (String × AuthData) :=
  match mget token m with
  | none => (false, m)
  | some a =>
    if now > a.expires then (false, mdel token m)
    else if a.used then (false, m)
    else (true, mset token { a with used := true } m)

/-- A sequence of `validateAuthToken` calls (time, token) applied in order. -/
def runValidates (calls : List (Nat × String)) (m : List (String × AuthData)) :
    List (String × AuthData) :=
  calls.foldl (fun m c => (validateAuthToken c.1 c.2 m).2) m

/-! ## Map and broadcast lemmas -/

theorem mget_mset {α β : Type} [DecidableEq α] (k k2 : α) (v : β) (m : List (α × β)) :
    mget k (mset k2 v m) = if k = k2 then some v else mget k m := by
  induction m with
  | nil =>
    by_cases h : k = k2 <;> simp [mget, mset, h]
  | cons hd tl ih =>
    obtain ⟨k3, v3⟩ := hd
    by_cases h2 : k2 = k3
    · subst h2
      simp only [mset, if_pos rfl]
      by_cases h1 : k = k2 <;> simp [mget, h1]
    · simp only [mset, if_neg h2]
      by_cases h1 : k = k3
      · subst h1
        have hne : ¬ k = k2 := fun h => h2 h.symm
        simp [mget, hne]
      · simp only [mget, if_neg h1]
        exact ih

theorem mget_mset_self {α β : Type} [DecidableEq α] (k : α) (v : β) (m : List (α × β)) :
    mget k (mset k v m) = some v := by
  simp [mget_mset]

theorem mget_mdel_ne {α β : Type} [DecidableEq α] {k k2 : α} (h : k ≠ k2) (m : List (α × β)) :
    mget k (mdel k2 m) = mget k m := by
  induction m with
  | nil => rfl
  | cons hd tl ih =>
    obtain ⟨k3, v3⟩ := hd
    by_cases h2 : k2 = k3
    · subst h2
      simp [mdel, mget, h]
    · simp only [mdel, if_neg h2]
      by_cases h1 : k = k3
      · subst h1
        simp [mget]
      · simp only [mget, if_neg h1]
        exact ih

theorem mget_eq_none_of_not_mem_keys {α β : Type} [DecidableEq α] {k : α} {m : List (α × β)}
    (h : k ∉ m.map Prod.fst) : mget k m = none := by
  induction m with
  | nil => rfl
  | cons hd tl ih =>
    obtain ⟨k2, v2⟩ := hd
    rw [List.map_cons, List.mem_cons, not_or] at h
    simp only [mget, if_neg h.1]
    exact ih h.2

theorem mget_mdel_self {α β : Type} [DecidableEq α] (k : α) (m : List (α × β))
    (hnd : (m.map Prod.fst).Nodup) : mget k (mdel k m) = none := by
  induction m with
  | nil => rfl
  | cons hd tl ih =>
    obtain ⟨k2, v2⟩ := hd
    rw [List.map_cons, List.nodup_cons] at hnd
    by_cases h : k = k2
    · subst h
      simp only [mdel, if_pos rfl]
      exact mget_eq_none_of_not_mem_keys hnd.1
    · simp only [mdel, if_neg h, mget, if_neg h]
      exact ih hnd.2

theorem keys_mset_of_mem {α β : Type} [DecidableEq α] (k : α) (v : β) (m : List (α × β))
    (h : k ∈ m.map Prod.fst) : (mset k v m).map Prod.fst = m.map Prod.fst := by
  induction m with
  | nil => simp at h
  | cons hd tl ih =>
    obtain ⟨k2, v2⟩ := hd
    by_cases h1 : k = k2
    · subst h1
      simp [mset]
    · rw [List.map_cons, List.mem_cons] at h
      rcases h with h | h
      · exact absurd h h1
      · simp only [mset, if_neg h1, List.map_cons, ih h]

theorem keys_mset_of_not_mem {α β : Type} [DecidableEq α] (k : α) (v : β) (m : List (α × β))
    (h : k ∉ m.map Prod.fst) : (mset k v m).map Prod.fst = m.map Prod.fst ++ [k] := by
  induction m with
  | nil => simp [mset]
  | cons hd tl ih =>
    obtain ⟨k2, v2⟩ := hd
    rw [List.map_cons, List.mem_cons, not_or] at h
    simp only [mset, if_neg h.1, List.map_cons, ih h.2, List.cons_append]

theorem nodup_keys_mset {α β : Type} [DecidableEq α] (k : α) (v : β) (m : List (α × β))
    (h : (m.map Prod.fst).Nodup) : ((mset k v m).map Prod.fst).Nodup := by
  by_cases hk : k ∈ m.map Prod.fst
  · rw [keys_mset_of_mem k v m hk]; exact h
  · rw [keys_mset_of_not_mem k v m hk]
    simp [List.nodup_append, h, hk]

theorem mdel_sublist {α β : Type} [DecidableEq α] (k : α) (m : List (α × β)) :
    (mdel k m).Sublist m := by
  induction m with
  | nil => simp [mdel]
  | cons hd tl ih =>
    obtain ⟨k2, v2⟩ := hd
    by_cases h : k = k2
    · simp [mdel, h]
    · simpa [mdel, h] using ih.cons₂ (k2, v2)

theorem nodup_keys_mdel {α β : Type} [DecidableEq α] (k : α) (m : List (α × β))
    (h : (m.map Prod.fst).Nodup) : ((mdel k m).map Prod.fst).Nodup :=
  ((mdel_sublist k m).map Prod.fst).nodup h

theorem length_mset_of_not_mem {α β : Type} [DecidableEq α] (k : α) (v : β) (m : List (α × β))
    (h : mget k m = none) : (mset k v m).length = m.length + 1 := by
  induction m with
  | nil => simp [mset]
  | cons hd tl ih =>
    obtain ⟨k2, v2⟩ := hd
    by_cases h1 : k = k2
    · subst h1; simp [mget] at h
    · simp only [mget, if_neg h1] at h
      simp only [mset, if_neg h1, List.length_cons, ih h]

theorem broadcastPass_spec (oc : List Nat) (msg : OutMsg) (l : List Nat) :
    broadcastPass oc msg l =
      (l.filter (fun c => oc.contains c),
       (l.filter (fun c => oc.contains c)).map (fun c => (c, msg))) := by
  induction l with
  | nil => rfl
  | cons hd tl ih =>
    by_cases h : hd ∈ oc
    · simp [broadcastPass, ih, List.filter_cons, h]
    · simp [broadcastPass, ih, List.filter_cons, h]

theorem mget_map_permissions_mset (w ws : Nat) (c c2 : GClient) (m : List (Nat × GClient))
    (hc : mget ws m = some c) (hp : c2.permissions = c.permissions) :
    (mget w (mset ws c2 m)).map GClient.permissions = (mget w m).map GClient.permissions := by
  rw [mget_mset]
  by_cases h : w = ws
  · subst h; rw [hc]; simp [hp]
  · simp [h]

/-! ## Claim theorems -/

/-- C2: permission checking is role-first — with a declared role the decision
is the static role-table lookup alone and the legacy grants are ignored; the
legacy grant mapping is consulted only when no role is declared; and a remote
with role `viewer` sending REMOTE_CONTROL START_RESUME gets PERMISSION_DENIED
back while the controller receives nothing, whatever legacy grants it holds. -/
theorem c2_role_first_permissions :
    (∀ (c : GClient) (r a : String), c.role = some r →
        hasPermission c a = hasRolePermission r a) ∧
    (∀ (c : GClient) (a : String), c.role = none →
        hasPermission c a = legacyPermissionCheck c.permissions a) ∧
    (∀ (s : WSState) (ws : Nat) (c : GClient) (d : String),
        mget ws s.clients = some c → c.role = some "viewer" →
        handleMessage ws (.remoteControl "START_RESUME" d) s =
          (s, [(ws, OutMsg.permissionDenied "START_RESUME")])) := by
  refine ⟨?_, ?_, ?_⟩
  · intro c r a h
    simp [hasPermission, h]
  · intro c a h
    simp [hasPermission, h]
  · intro s ws c d hc hr
    have hrole : hasRolePermission "viewer" "START_RESUME" = false := by decide
    have hperm : hasPermission c "START_RESUME" = false := by
      simp [hasPermission, hr, hrole]
    simp [handleMessage, hc, hperm]

/-- C2 witness: a viewer remote holding the legacy FULL_CONTROL grant is still
denied START_RESUME and the open controller receives nothing. -/
theorem c2_role_first_permissions_witness :
    handleMessage 2 (.remoteControl "START_RESUME" "x")
      { clients := [(1, { id := 101, type := "controller", permissions := [], name := "A" }),
                    (2, { id := 102, type := "remote", permissions := ["FULL_CONTROL"],
                          name := "B", role := some "viewer" })],
        controllerClient := some 1, remoteClients := [2], displayClients := [],
        openConns := [1, 2] } =
    ({ clients := [(1, { id := 101, type := "controller", permissions := [], name := "A" }),
                   (2, { id := 102, type := "remote", permissions := ["FULL_CONTROL"],
                         name := "B", role := some "viewer" })],
       controllerClient := some 1, remoteClients := [2], displayClients := [],
       openConns := [1, 2] },
     [(2, OutMsg.permissionDenied "START_RESUME")]) :=
  c2_role_first_permissions.2.2 _ 2 _ "x" rfl rfl

/-- C10: a remote registered without a role is denied every action until the
controller grants permissions — the REGISTER_REMOTE permission list is stored
only as requestedPermissions, hasPermission never reads requestedPermissions,
the permissions field starts empty, is preserved by every non-GRANT message,
and is written by the GRANT_PERMISSIONS handler. -/
theorem c10_permissions_only_via_grant :
    (∀ cid : Nat, (newClientRecord cid).permissions = [] ∧ (newClientRecord cid).role = none) ∧
    (∀ (s : WSState) (ws : Nat) (c : GClient) (nm rl : Option String)
        (ps : Option (List String)) (sp : Option String),
        mget ws s.clients = some c →
        mget ws (handleMessage ws (.registerRemote nm rl ps sp) s).1.clients =
          some { c with
            type := "remote",
            name := jsOr nm ("Remote Client " ++ toString c.id),
            role := jsOrNull rl,
            requestedPermissions := ps.getD [],
            speakerName := jsOrNull sp }) ∧
    (∀ (c : GClient) (q : List String) (a : String),
        hasPermission { c with requestedPermissions := q } a = hasPermission c a) ∧
    (∀ (c : GClient) (a : String), c.role = none → c.permissions = [] →
        hasPermission c a = false) ∧
    (∀ (ws : Nat) (msg : InMsg) (s : WSState) (w : Nat),
        (∀ tid p, msg ≠ .grantPermissions tid p) →
        (mget w (handleMessage ws msg s).1.clients).map GClient.permissions =
          (mget w s.clients).map GClient.permissions) ∧
    (∀ (s : WSState) (ws : Nat) (c : GClient) (tid : Nat) (p : List String)
        (wsT : Nat) (cT : GClient),
        mget ws s.clients = some c → c.type = "controller" →
        findTarget tid s.clients = some (wsT, cT) →
        handleMessage ws (.grantPermissions tid p) s =
          ({ s with clients := mset wsT { cT with permissions := p } s.clients },
           [(wsT, OutMsg.permissionsGranted p)])) := by
  refine ⟨?_, ?_, ?_, ?_, ?_, ?_⟩
  · intro cid
    exact ⟨rfl, rfl⟩
  · intro s ws c nm rl ps sp hc
    simp [handleMessage, hc, mget_mset_self]
  · intro c q a
    rfl
  · intro c a h1 h2
    simp [hasPermission, h1, legacyPermissionCheck, h2]
  · intro ws msg s w hng
    cases hc : mget ws s.clients with
    | none => cases msg <;> simp [handleMessage, hc]
    | some c =>
      cases msg with
      | registerController =>
          simp only [handleMessage, hc]
          exact mget_map_permissions_mset w ws c _ s.clients hc rfl
      | registerRemote nm rl ps sp =>
          simp only [handleMessage, hc]
          exact mget_map_permissions_mset w ws c _ s.clients hc rfl
      | registerDisplay u =>
          simp only [handleMessage, hc]
          exact mget_map_permissions_mset w ws c _ s.clients hc rfl
      | timerUpdate d => simp [handleMessage, hc]
      | messageUpdate d => simp [handleMessage, hc]
      | remoteControl a d =>
          have hs : (handleMessage ws (.remoteControl a d) s).1 = s := by
            simp only [handleMessage, hc]
            cases hp : hasPermission c a
            · simp [hp]
            · simp only [hp, if_true]
              cases s.controllerClient with
              | none => rfl
              | some cc => split <;> first | rfl | (split <;> rfl)
          rw [hs]
      | grantPermissions tid p => exact absurd rfl (hng tid p)
      | unknownType t => simp [handleMessage, hc]
  · intro s ws c tid p wsT cT hc hctrl hft
    simp [handleMessage, hc, hctrl, hft]

/-- C5 (amended): REGISTER_CONTROLLER always installs the sender as the
process-wide controller slot, silently superseding any previous controller and
telling only remotes connected:true — but the close handler clears the slot
and broadcasts connected:false whenever any client whose type is `controller`
disconnects, including a superseded, no-longer-current controller. -/
theorem c5_controller_slot :
    (∀ (s : WSState) (ws : Nat) (c : GClient), mget ws s.clients = some c →
        (handleMessage ws .registerController s).1.controllerClient = some ws ∧
        ∀ pr, pr ∈ (handleMessage ws .registerController s).2 →
          pr.1 ∈ s.remoteClients ∧ pr.2 = OutMsg.controllerStatus true) ∧
    (∀ (s : WSState) (ws : Nat) (c : GClient), mget ws s.clients = some c →
        c.type = "controller" →
        (handleClose ws s).1.controllerClient = none ∧
        (handleClose ws s).2 =
          (broadcastPass s.openConns (.controllerStatus false) s.remoteClients).2) := by
  constructor
  · intro s ws c hc
    constructor
    · simp [handleMessage, hc]
    · intro pr hpr
      simp only [handleMessage, hc, broadcastPass_spec, List.mem_map] at hpr
      obtain ⟨cc, hcc, hpr⟩ := hpr
      subst hpr
      exact ⟨List.mem_of_mem_filter hcc, rfl⟩
  · intro s ws c hc hctrl
    constructor
    · simp [handleClose, hc, hctrl]
    · simp [handleClose, hc, hctrl]

/-- C5 witness: closing a client typed `controller` clears the slot even when
the current slot holds a different connection. -/
theorem c5_controller_slot_witness :
    (handleClose 1
        { clients := [(1, { id := 101, type := "controller", permissions := [], name := "A" }),
                      (2, { id := 102, type := "controller", permissions := [], name := "B" }),
                      (3, { id := 103, type := "remote", permissions := [], name := "R" })],
          controllerClient := some 2, remoteClients := [3], displayClients := [],
          openConns := [1, 2, 3] }).1.controllerClient = none ∧
    (handleClose 1
        { clients := [(1, { id := 101, type := "controller", permissions := [], name := "A" }),
                      (2, { id := 102, type := "controller", permissions := [], name := "B" }),
                      (3, { id := 103, type := "remote", permissions := [], name := "R" })],
          controllerClient := some 2, remoteClients := [3], displayClients := [],
          openConns := [1, 2, 3] }).2 =
      (broadcastPass [1, 2, 3] (.controllerStatus false) [3]).2 :=
  c5_controller_slot.2 _ 1 _ rfl rfl

/-- C5 scenario: A (ws 1) registers as controller, R (ws 3) registers as
remote, B (ws 2) registers as controller and supersedes A, then the
superseded A disconnects. -/
def c5Scenario : WSState × List (Nat × OutMsg) :=
  handleClose 1
    (handleMessage 2 .registerController
      (handleMessage 3 (.registerRemote (some "R") none none none)
        (handleMessage 1 .registerController
          (handleConnect 3 103 (handleConnect 2 102 (handleConnect 1 101
            { clients := [], controllerClient := none, remoteClients := [],
              displayClients := [], openConns := [1, 2, 3] })))).1).1).1

/-- C5 counterexample: after the superseded controller's disconnect the
current controller slot is cleared (not left at the current controller, ws 2)
and a connected:false status is broadcast to the remotes. -/
theorem c5_counterexample :
    c5Scenario.1.controllerClient = none ∧
    c5Scenario.2 = [(3, OutMsg.controllerStatus false)] :=
  ⟨rfl, rfl⟩

/-- C1 (amended): in global mode TIMER_UPDATE/MESSAGE_UPDATE frames are fanned
out to all open remotes and displays for every sender — the handler performs
no sender check and keeps no shared state; in room mode a ROOM_STATE_UPDATE
from a sender whose bound user is not a desktop-typed host changes nothing and
sends nothing, while the desktop host's update is shallow-merged into the room
state and broadcast to the room's participants. -/
theorem c1_state_update_routing :
    (∀ (s : WSState) (ws : Nat) (c : GClient) (d : String),
        mget ws s.clients = some c →
        (handleMessage ws (.timerUpdate d) s).2 =
          (broadcastPass s.openConns (.timerUpdate d) s.remoteClients).2 ++
            (broadcastPass s.openConns (.timerUpdate d) s.displayClients).2 ∧
        (handleMessage ws (.messageUpdate d) s).2 =
          (broadcastPass s.openConns (.messageUpdate d) s.remoteClients).2 ++
            (broadcastPass s.openConns (.messageUpdate d) s.displayClients).2) ∧
    (∀ (now : Nat) (oc : List Nat) (ctx : ConnCtx) (p : StatePatch)
        (rooms : List (String × Room)) (u : UserRef),
        ctx.currentUser = some u → userRefType u ≠ some "desktop" →
        handleRoomStateUpdate now oc ctx p rooms = (rooms, [])) ∧
    (∀ (now : Nat) (oc : List Nat) (rc rc2 : String) (p : StatePatch)
        (rooms : List (String × Room)) (room : Room),
        mget rc rooms = some room →
        handleRoomStateUpdate now oc
            { currentRoom := some rc, currentUser := some (.hostRef rc2 "desktop") } p rooms =
          (mset rc { room with state := mergeState room.state p, lastActivity := now } rooms,
           broadcastUsers oc (.roomStateUpdate (mergeState room.state p)) none room.users)) := by
  refine ⟨?_, ?_, ?_⟩
  · intro s ws c d hc
    exact ⟨by simp [handleMessage, hc], by simp [handleMessage, hc]⟩
  · intro now oc ctx p rooms u hcu hut
    obtain ⟨cr, cu⟩ := ctx
    simp only at hcu
    subst hcu
    cases cr with
    | none => rfl
    | some rc => simp [handleRoomStateUpdate, hut]
  · intro now oc rc rc2 p rooms room hr
    simp [handleRoomStateUpdate, userRefType, hr, broadcastToRoom, mget_mset_self]

/-- C1 witness: with one open remote (ws 3) and one open display (ws 4), any
sender's TIMER_UPDATE is fanned out to both; and a plain room participant's
ROOM_STATE_UPDATE is a no-op. -/
theorem c1_state_update_routing_witness :
    ((handleMessage 3 (.timerUpdate "T")
        { clients := [(1, { id := 101, type := "controller", permissions := [], name := "A" }),
                      (3, { id := 103, type := "remote", permissions := [], name := "R" }),
                      (4, { id := 104, type := "display", permissions := [], name := "D" })],
          controllerClient := some 1, remoteClients := [3], displayClients := [4],
          openConns := [1, 3, 4] }).2 =
      (broadcastPass [1, 3, 4] (.timerUpdate "T") [3]).2 ++
        (broadcastPass [1, 3, 4] (.timerUpdate "T") [4]).2) ∧
    handleRoomStateUpdate 7 [1] { currentRoom := some "R", currentUser := some (.userRef "R" "u1") }
        { timer := some (some "t") } [] = ([], []) :=
  ⟨(c1_state_update_routing.1
      { clients := [(1, { id := 101, type := "controller", permissions := [], name := "A" }),
                    (3, { id := 103, type := "remote", permissions := [], name := "R" }),
                    (4, { id := 104, type := "display", permissions := [], name := "D" })],
        controllerClient := some 1, remoteClients := [3], displayClients := [4],
        openConns := [1, 3, 4] } 3
      { id := 103, type := "remote", permissions := [], name := "R" } "T" rfl).1,
   c1_state_update_routing.2.1 7 [1]
      { currentRoom := some "R", currentUser := some (.userRef "R" "u1") }
      { timer := some (some "t") } [] (.userRef "R" "u1") rfl (by decide)⟩

/-- C1 scenario: a remote (ws 3), not the controller, sends TIMER_UPDATE. -/
def c1Scenario : WSState × List (Nat × OutMsg) :=
  handleMessage 3 (.timerUpdate "T")
    { clients := [(1, { id := 101, type := "controller", permissions := [], name := "A" }),
                  (3, { id := 103, type := "remote", permissions := [], name := "R" }),
                  (4, { id := 104, type := "display", permissions := [], name := "D" })],
      controllerClient := some 1, remoteClients := [3], displayClients := [4],
      openConns := [1, 3, 4] }

/-- C1 counterexample: the update frame sent by a non-controller client is
still fanned out to the remotes and displays — the fan-out is not empty as
the claim would require for a non-controller sender. -/
theorem c1_counterexample :
    c1Scenario.2 = [(3, OutMsg.timerUpdate "T"), (4, OutMsg.timerUpdate "T")] ∧
    c1Scenario.2 ≠ [] :=
  ⟨rfl, fun h => List.noConfusion h⟩

/-- C10 witness: a roleless remote with empty permissions is denied
START_RESUME; GRANT_PERMISSIONS from the controller rewrites the target's
permissions field; REGISTER_REMOTE leaves the permissions field untouched. -/
theorem c10_permissions_only_via_grant_witness :
    hasPermission { id := 102, type := "remote", permissions := [], name := "B" } "START_RESUME"
      = false ∧
    handleMessage 1 (.grantPermissions 102 ["TIME_CONTROL"])
      { clients := [(1, { id := 101, type := "controller", permissions := [], name := "A" }),
                    (2, { id := 102, type := "remote", permissions := [], name := "B" })],
        controllerClient := some 1, remoteClients := [2], displayClients := [],
        openConns := [1, 2] } =
      ({ clients := mset 2 { id := 102, type := "remote", permissions := ["TIME_CONTROL"],
                             name := "B" }
                      [(1, { id := 101, type := "controller", permissions := [], name := "A" }),
                       (2, { id := 102, type := "remote", permissions := [], name := "B" })],
         controllerClient := some 1, remoteClients := [2], displayClients := [],
         openConns := [1, 2] },
       [(2, OutMsg.permissionsGranted ["TIME_CONTROL"])]) ∧
    (mget 2 (handleMessage 2 (.registerRemote (some "B") none (some ["FULL_CONTROL"]) none)
        { clients := [(1, { id := 101, type := "controller", permissions := [], name := "A" }),
                      (2, { id := 102, type := "remote", permissions := [], name := "B" })],
          controllerClient := some 1, remoteClients := [2], displayClients := [],
          openConns := [1, 2] }).1.clients).map GClient.permissions =
      (mget 2
        [(1, { id := 101, type := "controller", permissions := [], name := "A" }),
         (2, { id := 102, type := "remote", permissions := [], name := "B" })]).map
        GClient.permissions := by
  refine ⟨?_, ?_, ?_⟩
  · exact c10_permissions_only_via_grant.2.2.2.1
      { id := 102, type := "remote", permissions := [], name := "B" } "START_RESUME" rfl rfl
  · exact c10_permissions_only_via_grant.2.2.2.2.2
      { clients := [(1, { id := 101, type := "controller", permissions := [], name := "A" }),
                    (2, { id := 102, type := "remote", permissions := [], name := "B" })],
        controllerClient := some 1, remoteClients := [2], displayClients := [],
        openConns := [1, 2] } 1
      { id := 101, type := "controller", permissions := [], name := "A" } 102 ["TIME_CONTROL"] 2
      { id := 102, type := "remote", permissions := [], name := "B" } rfl rfl rfl
  · exact c10_permissions_only_via_grant.2.2.2.2.1 2
      (.registerRemote (some "B") none (some ["FULL_CONTROL"]) none)
      { clients := [(1, { id := 101, type := "controller", permissions := [], name := "A" }),
                    (2, { id := 102, type := "remote", permissions := [], name := "B" })],
        controllerClient := some 1, remoteClients := [2], displayClients := [],
        openConns := [1, 2] } 2
      (fun tid p h => InMsg.noConfusion h)

/-- C3 (amended): leaveRoom removes the named participant, bumps lastActivity,
and deletes the room immediately — not via the sweeper — whenever the
resulting participant map is empty, regardless of whether the room still has
an attached or connected host; when participants remain, the room persists. -/
theorem c3_leave_room_deletion :
    ∀ (now : Nat) (rc uid : String) (rooms : List (String × Room)) (room : Room),
      (rooms.map Prod.fst).Nodup →
      mget rc rooms = some room →
      ((mdel uid room.users ≠ [] →
          mget rc (leaveRoom now rc uid rooms) =
            some { room with users := mdel uid room.users, lastActivity := now }) ∧
       (mdel uid room.users = [] →
          mget rc (leaveRoom now rc uid rooms) = none)) := by
  intro now rc uid rooms room hnd hr
  constructor
  · intro hne
    have hlen : ¬ ((mdel uid room.users).length = 0) := by
      simpa [List.length_eq_zero] using hne
    simp [leaveRoom, hr, hlen, mget_mset_self]
  · intro he
    simp [leaveRoom, hr, he, mget_mdel_self rc rooms hnd]

/-- C3 witness: a participant leaving a two-member room keeps the room live
with the remaining member; the same call on a one-member room deletes it. -/
theorem c3_leave_room_deletion_witness :
    mget "R1" (leaveRoom 9 "R1" "u1"
      [("R1",
        { code := "R1",
          host := { id := "h", name := "H", type := "desktop", joinedAt := 0, ws := some 5 },
          users := [("u1", { id := "u1", name := "P", role := "viewer", joinedAt := 1, ws := some 6 }),
                    ("u2", { id := "u2", name := "Q", role := "viewer", joinedAt := 2, ws := some 7 })],
          createdAt := 0, lastActivity := 2,
          settings := { allowViewers := true, allowSpeakers := true,
                        requireApproval := false, maxUsers := 50 },
          state := { timer := none, message := none, isConnected := true } })]) =
      some
        { code := "R1",
          host := { id := "h", name := "H", type := "desktop", joinedAt := 0, ws := some 5 },
          users := mdel "u1"
            [("u1", { id := "u1", name := "P", role := "viewer", joinedAt := 1, ws := some 6 }),
             ("u2", { id := "u2", name := "Q", role := "viewer", joinedAt := 2, ws := some 7 })],
          createdAt := 0, lastActivity := 9,
          settings := { allowViewers := true, allowSpeakers := true,
                        requireApproval := false, maxUsers := 50 },
          state := { timer := none, message := none, isConnected := true } } :=
  (c3_leave_room_deletion 9 "R1" "u1"
    [("R1",
      { code := "R1",
        host := { id := "h", name := "H", type := "desktop", joinedAt := 0, ws := some 5 },
        users := [("u1", { id := "u1", name := "P", role := "viewer", joinedAt := 1, ws := some 6 }),
                  ("u2", { id := "u2", name := "Q", role := "viewer", joinedAt := 2, ws := some 7 })],
        createdAt := 0, lastActivity := 2,
        settings := { allowViewers := true, allowSpeakers := true,
                      requireApproval := false, maxUsers := 50 },
        state := { timer := none, message := none, isConnected := true } })]
    { code := "R1",
      host := { id := "h", name := "H", type := "desktop", joinedAt := 0, ws := some 5 },
      users := [("u1", { id := "u1", name := "P", role := "viewer", joinedAt := 1, ws := some 6 }),
                ("u2", { id := "u2", name := "Q", role := "viewer", joinedAt := 2, ws := some 7 })],
      createdAt := 0, lastActivity := 2,
      settings := { allowViewers := true, allowSpeakers := true,
                    requireApproval := false, maxUsers := 50 },
      state := { timer := none, message := none, isConnected := true } }
    (by decide) rfl).1 (fun h => List.noConfusion h)

/-- C3 scenario: a room whose host is attached and connected, holding a single
participant. -/
def c3Rooms : List (String × Room) :=
  [("AB12CD",
    { code := "AB12CD",
      host := { id := "h", name := "H", type := "desktop", joinedAt := 0, ws := some 5 },
      users := [("u1", { id := "u1", name := "P", role := "viewer", joinedAt := 1, ws := some 6 })],
      createdAt := 0, lastActivity := 1,
      settings := { allowViewers := true, allowSpeakers := true,
                    requireApproval := false, maxUsers := 50 },
      state := { timer := none, message := none, isConnected := true } })]

/-- C3 counterexample: the last participant leaves a room that still has an
attached, connected host — and the room is deleted immediately anyway,
refuting deletion-only-when-no-host. -/
theorem c3_counterexample :
    (∃ r, mget "AB12CD" c3Rooms = some r ∧ r.host.ws = some 5 ∧ r.state.isConnected = true) ∧
    leaveRoom 2 "AB12CD" "u1" c3Rooms = [] :=
  ⟨⟨_, rfl, rfl, rfl⟩, rfl⟩

/-- C6 (amended): the global-mode broadcasts deliver to exactly the open
connections of the target set and prune every closed one from the set; the
room broadcast delivers to every attached open, non-excluded participant but
does not remove closed participants from the room's user map (a host state
update leaves the membership, including closed members, unchanged). -/
theorem c6_broadcast_prune :
    (∀ (oc : List Nat) (msg : OutMsg) (l : List Nat),
        (broadcastPass oc msg l).1 = l.filter (fun c => oc.contains c) ∧
        (broadcastPass oc msg l).2 =
          (l.filter (fun c => oc.contains c)).map (fun c => (c, msg))) ∧
    (∀ (oc : List Nat) (msg : ROut) (excl : Option String) (us : List (String × RUser))
        (uid : String) (u : RUser) (w : Nat),
        (uid, u) ∈ us → excl ≠ some uid → u.ws = some w → oc.contains w = true →
        (w, msg) ∈ broadcastUsers oc msg excl us) ∧
    (∀ (now : Nat) (oc : List Nat) (rc rc2 : String) (p : StatePatch)
        (rooms : List (String × Room)) (room : Room),
        mget rc rooms = some room →
        mget rc (handleRoomStateUpdate now oc
            { currentRoom := some rc, currentUser := some (.hostRef rc2 "desktop") } p rooms).1 =
          some { room with state := mergeState room.state p, lastActivity := now }) := by
  refine ⟨?_, ?_, ?_⟩
  · intro oc msg l
    rw [broadcastPass_spec]
    exact ⟨rfl, rfl⟩
  · intro oc msg excl us
    induction us with
    | nil => intro uid u w h; simp at h
    | cons hd tl ih =>
      intro uid u w hmem hex hws hoc
      obtain ⟨uid2, u2⟩ := hd
      rcases List.mem_cons.mp hmem with heq | hmem2
      · injection heq with h1 h2
        subst h1
        subst h2
        have hw : w ∈ oc := by simpa using hoc
        simp [broadcastUsers, hws, hex, hw]
      · have hmemtail := ih uid u w hmem2 hex hws hoc
        simp only [broadcastUsers]
        cases h2 : u2.ws with
        | none => exact hmemtail
        | some w2 =>
          show (w, msg) ∈
            if excl ≠ some uid2 ∧ oc.contains w2 = true then
              (w2, msg) :: broadcastUsers oc msg excl tl
            else broadcastUsers oc msg excl tl
          by_cases hcond : excl ≠ some uid2 ∧ oc.contains w2 = true
          · rw [if_pos hcond]
            exact List.mem_cons_of_mem _ hmemtail
          · rw [if_neg hcond]
            exact hmemtail
  · intro now oc rc rc2 p rooms room hr
    simp [handleRoomStateUpdate, userRefType, hr, mget_mset_self]

/-- C6 scenario: a host state update over a room with one open (ws 1) and one
closed (ws 2) participant. -/
def c6Scenario : List (String × Room) × List (Nat × ROut) :=
  handleRoomStateUpdate 5 [1, 9]
    { currentRoom := some "R", currentUser := some (.hostRef "R" "desktop") }
    { timer := some (some "t") }
    [("R",
      { code := "R",
        host := { id := "h", name := "H", type := "desktop", joinedAt := 0, ws := some 9 },
        users := [("u1", { id := "u1", name := "P", role := "viewer", joinedAt := 1, ws := some 1 }),
                  ("u2", { id := "u2", name := "Q", role := "viewer", joinedAt := 2, ws := some 2 })],
        createdAt := 0, lastActivity := 2,
        settings := { allowViewers := true, allowSpeakers := true,
                      requireApproval := false, maxUsers := 50 },
        state := { timer := none, message := none, isConnected := true } })]

/-- C6 counterexample: during the room broadcast the closed participant (ws 2)
receives nothing — yet it stays in the room's user map, refuting the claim
that every connection found closed during the pass is removed from the live
set. -/
theorem c6_counterexample :
    c6Scenario.2 =
      [(1, ROut.roomStateUpdate { timer := some "t", message := none, isConnected := true })] ∧
    (∃ r, mget "R" c6Scenario.1 = some r ∧
        mget "u2" r.users =
          some { id := "u2", name := "Q", role := "viewer", joinedAt := 2, ws := some 2 }) :=
  ⟨rfl, ⟨_, rfl, rfl⟩⟩

/-- C7: joinRoom fails with Room-not-found for an unknown code, fails with
Room-is-full when membership is at or above the configured max (default 50),
and otherwise inserts the participant and bumps lastActivity, leaving every
other room field unchanged. -/
theorem c7_join_room_contract :
    (∀ (now : Nat) (rc : String) (u : RUser) (rooms : List (String × Room)),
        mget rc rooms = none → joinRoom now rc u rooms = .error "Room not found") ∧
    (∀ (now : Nat) (rc : String) (u : RUser) (rooms : List (String × Room)) (room : Room),
        mget rc rooms = some room →
        room.users.length ≥ room.settings.maxUsers →
        joinRoom now rc u rooms = .error "Room is full") ∧
    (∀ (now : Nat) (rc : String) (u : RUser) (rooms : List (String × Room)) (room : Room),
        mget rc rooms = some room →
        room.users.length < room.settings.maxUsers →
        joinRoom now rc u rooms =
          .ok ({ room with users := mset u.id u room.users, lastActivity := now },
               mset rc { room with users := mset u.id u room.users, lastActivity := now }
                 rooms)) ∧
    MAX_USERS_PER_ROOM = 50 ∧
    (∀ (now : Nat) (gen : String) (h : HostInfo) (c : Option String)
        (rooms : List (String × Room)),
        (createRoom now gen h c rooms).1.settings.maxUsers = 50) := by
  refine ⟨?_, ?_, ?_, rfl, ?_⟩
  · intro now rc u rooms hr
    simp [joinRoom, hr]
  · intro now rc u rooms room hr hge
    simp [joinRoom, hr, hge]
  · intro now rc u rooms room hr hlt
    simp only [joinRoom, hr]
    rw [if_neg (by omega)]
  · intro now gen h c rooms
    rfl

/-- C7 witness: unknown code errors; a room at its capacity errors; an open
room accepts the participant. -/
theorem c7_join_room_contract_witness :
    joinRoom 3 "ZZ" { id := "u9", name := "N", role := "viewer", joinedAt := 3 } [] =
      .error "Room not found" ∧
    joinRoom 3 "F1" { id := "u9", name := "N", role := "viewer", joinedAt := 3 }
      [("F1",
        { code := "F1",
          host := { id := "h", name := "H", type := "desktop", joinedAt := 0 },
          users := [("u1", { id := "u1", name := "P", role := "viewer", joinedAt := 1 })],
          createdAt := 0, lastActivity := 1,
          settings := { allowViewers := true, allowSpeakers := true,
                        requireApproval := false, maxUsers := 1 },
          state := { timer := none, message := none, isConnected := false } })] =
      .error "Room is full" ∧
    joinRoom 3 "O1" { id := "u9", name := "N", role := "viewer", joinedAt := 3 }
      [("O1",
        { code := "O1",
          host := { id := "h", name := "H", type := "desktop", joinedAt := 0 },
          users := [],
          createdAt := 0, lastActivity := 1,
          settings := { allowViewers := true, allowSpeakers := true,
                        requireApproval := false, maxUsers := 50 },
          state := { timer := none, message := none, isConnected := false } })] =
      .ok
        ({ code := "O1",
           host := { id := "h", name := "H", type := "desktop", joinedAt := 0 },
           users := mset "u9" { id := "u9", name := "N", role := "viewer", joinedAt := 3 } [],
           createdAt := 0, lastActivity := 3,
           settings := { allowViewers := true, allowSpeakers := true,
                         requireApproval := false, maxUsers := 50 },
           state := { timer := none, message := none, isConnected := false } },
         mset "O1"
           { code := "O1",
             host := { id := "h", name := "H", type := "desktop", joinedAt := 0 },
             users := mset "u9" { id := "u9", name := "N", role := "viewer", joinedAt := 3 } [],
             createdAt := 0, lastActivity := 3,
             settings := { allowViewers := true, allowSpeakers := true,
                           requireApproval := false, maxUsers := 50 },
             state := { timer := none, message := none, isConnected := false } }
           [("O1",
             { code := "O1",
               host := { id := "h", name := "H", type := "desktop", joinedAt := 0 },
               users := [],
               createdAt := 0, lastActivity := 1,
               settings := { allowViewers := true, allowSpeakers := true,
                             requireApproval := false, maxUsers := 50 },
               state := { timer := none, message := none, isConnected := false } })]) ∧
    (createRoom 0 "G1" { id := "h", name := "H", type := "desktop", joinedAt := 0 } none
        []).1.settings.maxUsers = 50 := by
  refine ⟨?_, ?_, ?_, ?_⟩
  · exact c7_join_room_contract.1 3 "ZZ" _ [] rfl
  · exact c7_join_room_contract.2.1 3 "F1" _ _
      { code := "F1",
        host := { id := "h", name := "H", type := "desktop", joinedAt := 0 },
        users := [("u1", { id := "u1", name := "P", role := "viewer", joinedAt := 1 })],
        createdAt := 0, lastActivity := 1,
        settings := { allowViewers := true, allowSpeakers := true,
                      requireApproval := false, maxUsers := 1 },
        state := { timer := none, message := none, isConnected := false } }
      rfl (by decide)
  · exact c7_join_room_contract.2.2.1 3 "O1" _ _
      { code := "O1",
        host := { id := "h", name := "H", type := "desktop", joinedAt := 0 },
        users := [],
        createdAt := 0, lastActivity := 1,
        settings := { allowViewers := true, allowSpeakers := true,
                      requireApproval := false, maxUsers := 50 },
        state := { timer := none, message := none, isConnected := false } }
      rfl (by decide)
  · exact c7_join_room_contract.2.2.2.2 0 "G1" _ none []

/-- C9 room used by the witness: a room already holding 50 participants. -/
def c9Room : Room :=
  { code := "R",
    host := { id := "h", name := "H", type := "desktop", joinedAt := 0, ws := none },
    users := (List.range 50).map (fun i =>
      (toString i, { id := toString i, name := "P", role := "viewer", joinedAt := 0, ws := none })),
    createdAt := 0, lastActivity := 0,
    settings := { allowViewers := true, allowSpeakers := true,
                  requireApproval := false, maxUsers := 50 },
    state := { timer := none, message := none, isConnected := false } }

/-- C9: a non-host JOIN_ROOM frame for an existing room inserts the
participant into the room's user map and replies ROOM_JOINED unconditionally;
no hypothesis on room size is needed — there is no capacity check on this
WebSocket path, so membership strictly grows past any configured maximum. -/
theorem c9_ws_join_no_capacity_check :
    ∀ (now : Nat) (oc : List Nat) (freshId : String) (ws : Nat) (rc ct : String)
      (ci : ClientInfo) (rooms : List (String × Room)) (room : Room),
      mget rc rooms = some room → ct ≠ "host" →
      ∃ room2,
        (handleJoinRoom now oc freshId ws rc ct ci rooms).2.1 = mset rc room2 rooms ∧
        room2.users = mset freshId
          { id := freshId, name := jsOr ci.name "Anonymous User",
            role := jsOr ci.role "viewer", joinedAt := now, ws := some ws } room.users ∧
        room2.lastActivity = now ∧ room2.code = room.code ∧ room2.host = room.host ∧
        room2.settings = room.settings ∧ room2.state = room.state ∧
        room2.createdAt = room.createdAt ∧
        (handleJoinRoom now oc freshId ws rc ct ci rooms).2.2 =
          (match room.host.ws with
           | some hw => if oc.contains hw then [(hw, ROut.roomClientJoined freshId)] else []
           | none => []) ++ [(ws, ROut.roomJoined rc room2.users.length)] ∧
        (mget freshId room.users = none → room2.users.length = room.users.length + 1) := by
  intro now oc freshId ws rc ct ci rooms room hr hct
  simp only [handleJoinRoom, hr]
  rw [if_neg hct]
  refine ⟨_, rfl, rfl, rfl, rfl, rfl, rfl, rfl, rfl, rfl, ?_⟩
  intro hfresh
  exact length_mset_of_not_mem freshId _ room.users hfresh

/-- C9 witness: joining a room that already holds its configured maximum of 50
participants succeeds over the WebSocket path and pushes membership to 51. -/
theorem c9_ws_join_no_capacity_check_witness :
    c9Room.users.length = c9Room.settings.maxUsers ∧
    (∃ room2,
      (handleJoinRoom 9 [] "u-new" 7 "R" "viewer" {} [("R", c9Room)]).2.1 =
        mset "R" room2 [("R", c9Room)] ∧
      room2.users.length = 51) := by
  constructor
  · rfl
  · obtain ⟨room2, h1, h2, _, _, _, _, _, _, _, hcap⟩ :=
      c9_ws_join_no_capacity_check 9 [] "u-new" 7 "R" "viewer" {} [("R", c9Room)] c9Room
        rfl (by decide)
    refine ⟨room2, h1, ?_⟩
    rw [hcap (by rfl), show c9Room.users.length = 50 from rfl]

theorem jsOr_idem (code : Option String) (gen : String) :
    jsOr (some (jsOr code gen)) gen = jsOr code gen := by
  cases code with
  | none => by_cases h : gen = "" <;> simp [jsOr, h]
  | some c =>
    by_cases h : c = ""
    · by_cases h2 : gen = "" <;> simp [jsOr, h, h2]
    · simp [jsOr, h]

theorem codeGenAux_le (gen : Nat → String) (owners : List String) :
    ∀ (fuel attempts : Nat), attempts < 10 → 10 ≤ fuel + attempts →
      (codeGenAux gen owners fuel attempts).2 ≤ 10 := by
  intro fuel
  induction fuel with
  | zero =>
    intro attempts h1 h2
    omega
  | succ f ih =>
    intro attempts h1 h2
    simp only [codeGenAux]
    by_cases hc : owners.contains (gen attempts) = true ∧ attempts + 1 < 10
    · rw [if_pos hc]
      exact ih (attempts + 1) hc.2 (by omega)
    · rw [if_neg hc]
      omega

theorem codeGenAux_fresh (gen : Nat → String) (owners : List String) :
    ∀ (fuel attempts : Nat), fuel + attempts = 10 →
      (codeGenAux gen owners fuel attempts).2 < 10 →
      owners.contains (codeGenAux gen owners fuel attempts).1 = false := by
  intro fuel
  induction fuel with
  | zero =>
    intro attempts hinv h
    simp only [codeGenAux] at h
    omega
  | succ f ih =>
    intro attempts hinv h
    simp only [codeGenAux] at h ⊢
    by_cases hc : owners.contains (gen attempts) = true ∧ attempts + 1 < 10
    · rw [if_pos hc] at h ⊢
      exact ih (attempts + 1) (by omega) h
    · rw [if_neg hc] at h ⊢
      simp only at h
      rcases Decidable.not_and_iff_or_not.mp hc with hc2 | hc2
      · exact Bool.eq_false_iff.mpr (fun he => hc2 he)
      · exact absurd h hc2

theorem codeGenAux_exhaust (gen : Nat → String) (owners : List String) :
    ∀ (fuel attempts : Nat), fuel + attempts = 10 → attempts < 10 →
      (∀ i, i < 10 → owners.contains (gen i) = true) →
      (codeGenAux gen owners fuel attempts).2 = 10 := by
  intro fuel
  induction fuel with
  | zero =>
    intro attempts hinv h1 _
    omega
  | succ f ih =>
    intro attempts hinv h1 hall
    simp only [codeGenAux]
    by_cases hlt : attempts + 1 < 10
    · rw [if_pos ⟨hall attempts h1, hlt⟩]
      exact ih (attempts + 1) (by omega) hlt hall
    · rw [if_neg (fun hc => hlt hc.2)]
      omega

/-- C4 (amended): the bare createRoom function performs no conflict check and
overwrites a live room at the desired code; the conflict rejection lives in
the room-server create endpoint, which fails with Room-code-already-exists
without altering the store and, on success, returns a code not previously
live and stores exactly that room; the bounded retry loop (at most 10
generation attempts, then a deterministic failure) exists only in the auth
server's create endpoint against its roomOwners map. -/
theorem c4_room_code_generation :
    (∀ (now : Nat) (gen : String) (h : HostInfo) (code : Option String)
        (rooms : List (String × Room)),
        (mget (jsOr code gen) rooms).isSome = true →
        createRoomEndpoint now gen h code rooms = .error "Room code already exists") ∧
    (∀ (now : Nat) (gen : String) (h : HostInfo) (code : Option String)
        (rooms : List (String × Room)) (room : Room) (rooms2 : List (String × Room)),
        createRoomEndpoint now gen h code rooms = .ok (room, rooms2) →
        mget room.code rooms = none ∧ rooms2 = mset room.code room rooms) ∧
    (∀ (gen : Nat → String) (owners : List String) (code : String),
        authGenerateRoomCode gen owners = .ok code → owners.contains code = false) ∧
    (∀ (gen : Nat → String) (owners : List String),
        (codeGenAux gen owners 10 0).2 ≤ 10) ∧
    (∀ (gen : Nat → String) (owners : List String),
        (∀ i, i < 10 → owners.contains (gen i) = true) →
        authGenerateRoomCode gen owners = .error "Failed to generate unique room code") := by
  refine ⟨?_, ?_, ?_, ?_, ?_⟩
  · intro now gen h code rooms hs
    simp [createRoomEndpoint, hs]
  · intro now gen h code rooms room rooms2 hok
    simp only [createRoomEndpoint] at hok
    by_cases hs : (mget (jsOr code gen) rooms).isSome = true
    · rw [if_pos hs] at hok
      exact absurd hok (by simp)
    · rw [if_neg hs] at hok
      have hnone : mget (jsOr code gen) rooms = none := by
        cases hm : mget (jsOr code gen) rooms
        · rfl
        · rw [hm] at hs
          simp at hs
      injection hok with heq
      have h1 : room = (createRoom now gen h (some (jsOr code gen)) rooms).1 :=
        (congrArg Prod.fst heq).symm
      have h2 : rooms2 = (createRoom now gen h (some (jsOr code gen)) rooms).2 :=
        (congrArg Prod.snd heq).symm
      subst h1
      subst h2
      refine ⟨?_, rfl⟩
      have hc2 : (createRoom now gen h (some (jsOr code gen)) rooms).1.code = jsOr code gen :=
        jsOr_idem code gen
      rw [hc2]
      exact hnone
  · intro gen owners code hok
    simp only [authGenerateRoomCode] at hok
    by_cases hge : (codeGenAux gen owners 10 0).2 ≥ 10
    · rw [if_pos hge] at hok
      exact absurd hok (by simp)
    · rw [if_neg hge] at hok
      injection hok with hok
      subst hok
      exact codeGenAux_fresh gen owners 10 0 rfl (by omega)
  · intro gen owners
    exact codeGenAux_le gen owners 10 0 (by omega) (by omega)
  · intro gen owners hall
    have h10 : (codeGenAux gen owners 10 0).2 = 10 :=
      codeGenAux_exhaust gen owners 10 0 rfl (by omega) hall
    simp [authGenerateRoomCode, h10]

/-- C4 scenario: a store already holding room code AAAAAA. -/
def c4Rooms : List (String × Room) :=
  (createRoom 0 "AAAAAA" { id := "hA", name := "A", type := "desktop", joinedAt := 0 }
    none []).2

/-- C4 counterexample: createRoom called with a desired code that is already
live does not fail — it returns a room under that code and silently replaces
the stored room (host A's room becomes host B's), altering the store. -/
theorem c4_counterexample :
    (mget "AAAAAA" c4Rooms).isSome = true ∧
    (createRoom 5 "BBBBBB" { id := "hB", name := "B", type := "desktop", joinedAt := 1 }
        (some "AAAAAA") c4Rooms).1.code = "AAAAAA" ∧
    (mget "AAAAAA"
        (createRoom 5 "BBBBBB" { id := "hB", name := "B", type := "desktop", joinedAt := 1 }
          (some "AAAAAA") c4Rooms).2).map (fun r => r.host.name) = some "B" ∧
    (mget "AAAAAA" c4Rooms).map (fun r => r.host.name) = some "A" :=
  ⟨rfl, rfl, rfl, rfl⟩

/-- C4 witness: the endpoint rejects a live desired code; a fully colliding
generator makes the auth loop fail deterministically; a non-colliding
generator yields a code outside the ownership map. -/
theorem c4_room_code_generation_witness :
    createRoomEndpoint 7 "GGGGGG" { id := "hB", name := "B", type := "desktop", joinedAt := 1 }
        (some "AAAAAA") c4Rooms = .error "Room code already exists" ∧
    authGenerateRoomCode (fun _ => "X") ["X"] = .error "Failed to generate unique room code" ∧
    (["USED"] : List String).contains "FRESH1" = false ∧
    (mget (createRoom 7 "CCCCCC" { id := "hB", name := "B", type := "desktop", joinedAt := 1 }
          (some "CCCCCC") c4Rooms).1.code c4Rooms = none ∧
      (createRoom 7 "CCCCCC" { id := "hB", name := "B", type := "desktop", joinedAt := 1 }
          (some "CCCCCC") c4Rooms).2 =
        mset (createRoom 7 "CCCCCC" { id := "hB", name := "B", type := "desktop", joinedAt := 1 }
            (some "CCCCCC") c4Rooms).1.code
          (createRoom 7 "CCCCCC" { id := "hB", name := "B", type := "desktop", joinedAt := 1 }
            (some "CCCCCC") c4Rooms).1 c4Rooms) :=
  ⟨c4_room_code_generation.1 7 "GGGGGG"
      { id := "hB", name := "B", type := "desktop", joinedAt := 1 } (some "AAAAAA") c4Rooms rfl,
   c4_room_code_generation.2.2.2.2 (fun _ => "X") ["X"] (fun _ _ => rfl),
   c4_room_code_generation.2.2.1 (fun _ => "FRESH1") ["USED"] "FRESH1" rfl,
   c4_room_code_generation.2.1 7 "CCCCCC"
      { id := "hB", name := "B", type := "desktop", joinedAt := 1 } none c4Rooms
      (createRoom 7 "CCCCCC" { id := "hB", name := "B", type := "desktop", joinedAt := 1 }
        (some "CCCCCC") c4Rooms).1
      (createRoom 7 "CCCCCC" { id := "hB", name := "B", type := "desktop", joinedAt := 1 }
        (some "CCCCCC") c4Rooms).2 rfl⟩

/-- A token that can never validate again: every entry stored under it is
already marked used. -/
def tokenUnusable (t : String) (m : List (String × AuthData)) : Prop :=
  ∀ a, mget t m = some a → a.used = true

theorem mget_validate_ne (t t2 : String) (n : Nat) (m : List (String × AuthData))
    (he : t ≠ t2) : mget t (validateAuthToken n t2 m).2 = mget t m := by
  cases hm : mget t2 m with
  | none => simp [validateAuthToken, hm]
  | some a =>
    by_cases hx : n > a.expires
    · simp [validateAuthToken, hm, hx, mget_mdel_ne he]
    · by_cases hu : a.used = true
      · simp [validateAuthToken, hm, hx, hu]
      · simp [validateAuthToken, hm, hx, hu, mget_mset, he]

theorem validate_false_of_unusable (t : String) (n : Nat) (m : List (String × AuthData))
    (h : tokenUnusable t m) : (validateAuthToken n t m).1 = false := by
  cases hm : mget t m with
  | none => simp [validateAuthToken, hm]
  | some a =>
    have hu := h a hm
    by_cases hx : n > a.expires
    · simp [validateAuthToken, hm, hx]
    · simp [validateAuthToken, hm, hx, hu]

theorem nodup_validate (t2 : String) (n : Nat) (m : List (String × AuthData))
    (hnd : (m.map Prod.fst).Nodup) :
    (((validateAuthToken n t2 m).2).map Prod.fst).Nodup := by
  cases hm : mget t2 m with
  | none => simpa [validateAuthToken, hm] using hnd
  | some a =>
    by_cases hx : n > a.expires
    · simp only [validateAuthToken, hm]
      rw [if_pos hx]
      exact nodup_keys_mdel t2 m hnd
    · by_cases hu : a.used = true
      · simp only [validateAuthToken, hm]
        rw [if_neg hx, if_pos hu]
        exact hnd
      · simp only [validateAuthToken, hm]
        rw [if_neg hx, if_neg hu]
        exact nodup_keys_mset t2 _ m hnd

theorem validate_preserves_unusable (t t2 : String) (n : Nat) (m : List (String × AuthData))
    (hnd : (m.map Prod.fst).Nodup) (h : tokenUnusable t m) :
    tokenUnusable t (validateAuthToken n t2 m).2 := by
  by_cases he : t = t2
  · subst he
    cases hm : mget t m with
    | none =>
        intro a2 ha2
        rw [show (validateAuthToken n t m).2 = m by simp [validateAuthToken, hm]] at ha2
        exact h a2 ha2
    | some a =>
      have hu : a.used = true := h a hm
      by_cases hx : n > a.expires
      · intro a2 ha2
        rw [show (validateAuthToken n t m).2 = mdel t m by
              simp only [validateAuthToken, hm]; rw [if_pos hx]] at ha2
        rw [mget_mdel_self t m hnd] at ha2
        exact Option.noConfusion ha2
      · intro a2 ha2
        rw [show (validateAuthToken n t m).2 = m by
              simp only [validateAuthToken, hm]; rw [if_neg hx, if_pos hu]] at ha2
        exact h a2 ha2
  · intro a2 ha2
    rw [mget_validate_ne t t2 n m he] at ha2
    exact h a2 ha2

theorem unusable_after_true (t : String) (n : Nat) (m : List (String × AuthData))
    (h : (validateAuthToken n t m).1 = true) :
    tokenUnusable t (validateAuthToken n t m).2 := by
  cases hm : mget t m with
  | none => simp [validateAuthToken, hm] at h
  | some a =>
    by_cases hx : n > a.expires
    · rw [show (validateAuthToken n t m).1 = false by
          simp only [validateAuthToken, hm]; rw [if_pos hx]] at h
      exact Bool.noConfusion h
    · by_cases hu : a.used = true
      · rw [show (validateAuthToken n t m).1 = false by
            simp only [validateAuthToken, hm]; rw [if_neg hx, if_pos hu]] at h
        exact Bool.noConfusion h
      · have hstate : (validateAuthToken n t m).2 = mset t { a with used := true } m := by
          simp only [validateAuthToken, hm]
          rw [if_neg hx, if_neg hu]
        intro a2 ha2
        rw [hstate, mget_mset_self] at ha2
        injection ha2 with ha2
        subst ha2
        rfl

theorem unusable_runValidates (t : String) (calls : List (Nat × String))
    (m : List (String × AuthData))
    (hnd : (m.map Prod.fst).Nodup) (h : tokenUnusable t m) :
    tokenUnusable t (runValidates calls m) ∧
      ((runValidates calls m).map Prod.fst).Nodup := by
  induction calls generalizing m with
  | nil => exact ⟨h, hnd⟩
  | cons c rest ih =>
    exact ih ((validateAuthToken c.1 c.2 m).2)
      (nodup_validate c.2 c.1 m hnd)
      (validate_preserves_unusable t c.2 c.1 m hnd h)

/-- C8: a token validates successfully at most once — after a successful
validateAuthToken, every later validation of the same token returns false,
whatever other validations happen in between; and any validation attempted
after the token's 5-minute expiry window returns false. -/
theorem c8_token_single_use :
    (∀ (m : List (String × AuthData)) (t : String) (n1 : Nat),
        (m.map Prod.fst).Nodup →
        (validateAuthToken n1 t m).1 = true →
        ∀ (calls : List (Nat × String)) (n2 : Nat),
          (validateAuthToken n2 t (runValidates calls (validateAuthToken n1 t m).2)).1 =
            false) ∧
    (∀ (g : Nat) (t : String) (m : List (String × AuthData)) (n : Nat),
        n > g + REMOTE_AUTH_TIMEOUT →
        (validateAuthToken n t (generateAuthToken g t m)).1 = false) := by
  constructor
  · intro m t n1 hnd htrue calls n2
    have h1 := unusable_after_true t n1 m htrue
    have hnd1 := nodup_validate t n1 m hnd
    have h2 := unusable_runValidates t calls _ hnd1 h1
    exact validate_false_of_unusable t n2 _ h2.1
  · intro g t m n hgt
    have hm : mget t (generateAuthToken g t m) =
        some { expires := g + REMOTE_AUTH_TIMEOUT, used := false } :=
      mget_mset_self t _ m
    simp [validateAuthToken, hm, hgt]

/-- C8 witness: a stored token validates once, then fails on reuse even with
an unrelated validation in between; a token validated just past its expiry
fails. -/
theorem c8_token_single_use_witness :
    (validateAuthToken 0 "tok" [("tok", { expires := 300000, used := false })]).1 = true ∧
    (validateAuthToken 1 "tok" (runValidates [(0, "other")]
        (validateAuthToken 0 "tok" [("tok", { expires := 300000, used := false })]).2)).1 =
      false ∧
    (validateAuthToken 300001 "tok" (generateAuthToken 0 "tok" [])).1 = false :=
  ⟨rfl,
   c8_token_single_use.1 [("tok", { expires := 300000, used := false })] "tok" 0
     (by simp) rfl [(0, "other")] 1,
   c8_token_single_use.2 0 "tok" [] 300001 (by decide)⟩

/-- C6 witness: an open attached participant receives the room broadcast, and
a host state update leaves the room's membership (with its closed member)
unchanged while merging the state. -/
theorem c6_broadcast_prune_witness :
    (1, ROut.hostConnected) ∈ broadcastUsers [1, 9] ROut.hostConnected none
      [("u1", { id := "u1", name := "P", role := "viewer", joinedAt := 1, ws := some 1 }),
       ("u2", { id := "u2", name := "Q", role := "viewer", joinedAt := 2, ws := some 2 })] ∧
    mget "R" (handleRoomStateUpdate 5 [1, 9]
        { currentRoom := some "R", currentUser := some (.hostRef "R" "desktop") }
        { timer := some (some "t") }
        [("R",
          { code := "R",
            host := { id := "h", name := "H", type := "desktop", joinedAt := 0, ws := some 9 },
            users := [("u1", { id := "u1", name := "P", role := "viewer", joinedAt := 1,
                               ws := some 1 }),
                      ("u2", { id := "u2", name := "Q", role := "viewer", joinedAt := 2,
                               ws := some 2 })],
            createdAt := 0, lastActivity := 2,
            settings := { allowViewers := true, allowSpeakers := true,
                          requireApproval := false, maxUsers := 50 },
            state := { timer := none, message := none, isConnected := true } })]).1 =
      some
        { code := "R",
          host := { id := "h", name := "H", type := "desktop", joinedAt := 0, ws := some 9 },
          users := [("u1", { id := "u1", name := "P", role := "viewer", joinedAt := 1,
                             ws := some 1 }),
                    ("u2", { id := "u2", name := "Q", role := "viewer", joinedAt := 2,
                             ws := some 2 })],
          createdAt := 0, lastActivity := 5,
          settings := { allowViewers := true, allowSpeakers := true,
                        requireApproval := false, maxUsers := 50 },
          state := { timer := some "t", message := none, isConnected := true } } :=
  ⟨c6_broadcast_prune.2.1 [1, 9] ROut.hostConnected none
      [("u1", { id := "u1", name := "P", role := "viewer", joinedAt := 1, ws := some 1 }),
       ("u2", { id := "u2", name := "Q", role := "viewer", joinedAt := 2, ws := some 2 })]
      "u1" { id := "u1", name := "P", role := "viewer", joinedAt := 1, ws := some 1 } 1
      (List.mem_cons_self _ _) (by decide) rfl rfl,
   c6_broadcast_prune.2.2 5 [1, 9] "R" "R" { timer := some (some "t") }
      [("R",
        { code := "R",
          host := { id := "h", name := "H", type := "desktop", joinedAt := 0, ws := some 9 },
          users := [("u1", { id := "u1", name := "P", role := "viewer", joinedAt := 1,
                             ws := some 1 }),
                    ("u2", { id := "u2", name := "Q", role := "viewer", joinedAt := 2,
                             ws := some 2 })],
          createdAt := 0, lastActivity := 2,
          settings := { allowViewers := true, allowSpeakers := true,
                        requireApproval := false, maxUsers := 50 },
          state := { timer := none, message := none, isConnected := true } })]
      { code := "R",
        host := { id := "h", name := "H", type := "desktop", joinedAt := 0, ws := some 9 },
        users := [("u1", { id := "u1", name := "P", role := "viewer", joinedAt := 1,
                           ws := some 1 }),
                  ("u2", { id := "u2", name := "Q", role := "viewer", joinedAt := 2,
                           ws := some 2 })],
        createdAt := 0, lastActivity := 2,
        settings := { allowViewers := true, allowSpeakers := true,
                      requireApproval := false, maxUsers := 50 },
        state := { timer := none, message := none, isConnected := true } }
      rfl⟩
